import Mathlib

/-!
Verification of `create_directory_diagram.py`.

A shallow embedding of the diagram-rendering script.  The script issues a
fixed sequence of drawing commands against a 2D canvas (logical extent
x ∈ [0,100], y ∈ [0,120]), then saves the canvas to a raster file and prints
a confirmation line.

The embedding records every drawing command as an element of a trace:
* `Patch` — a rectangle added by `draw_box` (rounded via `FancyBboxPatch`
  when `style = "round"`, else a plain `Rectangle`);
* `TextElem` — a text drawn by `ax.text` (directly or from inside
  `draw_box`);
* `LineElem` — a dashed connector drawn by `ax.plot`.

Coordinates and font sizes are rationals (the script only ever uses values
with one fractional decimal digit, exactly representable).  Text handling
mirrors Python: `text.split('\n')` becomes `String.splitOn "\n"`, which has
the same behaviour on the empty string (a single empty line).
-/

namespace DirectoryDiagram

/-- Font weight of a rendered text (`fontweight` argument). -/
inductive Weight
  | bold
  | normal
deriving DecidableEq, Repr

/-- One `ax.text` call: center position, content, font size and weight. -/
structure TextElem where
  x : ℚ
  y : ℚ
  content : String
  fontsize : ℚ
  weight : Weight
deriving DecidableEq, Repr

/-- One patch added by `draw_box`: a (possibly rounded) rectangle with the
given origin, size, fill color, black border, alpha 0.3, linewidth 1.5. -/
structure Patch where
  x : ℚ
  y : ℚ
  width : ℚ
  height : ℚ
  facecolor : String
  edgecolor : String
  alpha : ℚ
  linewidth : ℚ
  rounded : Bool
deriving DecidableEq, Repr

/-- One `ax.plot([x1,x2],[y1,y2], 'k--', ...)` connector line. -/
structure LineElem where
  x1 : ℚ
  x2 : ℚ
  y1 : ℚ
  y2 : ℚ
deriving DecidableEq, Repr

/-- An element drawn on the canvas. -/
inductive Elem
  | patch (p : Patch)
  | text (t : TextElem)
  | line (l : LineElem)
deriving DecidableEq, Repr

/-- The rectangle patch constructed by `draw_box`: `FancyBboxPatch` (rounded)
when `style == 'round'`, else `Rectangle`; both get the same origin, size,
facecolor, black edge, alpha 0.3 and linewidth 1.5. -/
def drawBoxPatch (x y width height : ℚ) (color : String) (style : String) :
    Patch :=
  { x := x, y := y, width := width, height := height,
    facecolor := color, edgecolor := "black",
    alpha := 3/10, linewidth := 3/2,
    rounded := style == "round" }

/-- The text elements drawn by `draw_box`: the text is split on newlines;
line `i` is centered horizontally in the box at
`y + height - (i+1) * height/(n+1)`, bold at size `fontsize` for `i = 0`,
normal at `fontsize - 1` otherwise. -/
def drawBoxTexts (x y width height : ℚ) (text : String) (fontsize : ℚ) :
    List TextElem :=
  let lines := text.splitOn "\n"
  let lineHeight := height / (lines.length + 1)
  lines.enum.map fun p =>
    { x := x + width / 2,
      y := y + height - (p.1 + 1) * lineHeight,
      content := p.2,
      fontsize := if p.1 = 0 then fontsize else fontsize - 1,
      weight := if p.1 = 0 then Weight.bold else Weight.normal }

/-- The Python helper `draw_box(x, y, width, height, text, color, ax,
fontsize=10, style='round')`: adds one patch, then one text per line. -/
def draw_box (x y width height : ℚ) (text : String) (color : String)
    (fontsize : ℚ := 10) (style : String := "round") : List Elem :=
  Elem.patch (drawBoxPatch x y width height color style) ::
    (drawBoxTexts x y width height text fontsize).map Elem.text

/-- A text element as built by a raw `ax.text(x, y, content, fontsize=...,
fontweight=...)` call (weight defaults to normal). -/
def axText (x y : ℚ) (content : String) (fontsize : ℚ)
    (weight : Weight := Weight.normal) : TextElem :=
  { x := x, y := y, content := content, fontsize := fontsize, weight := weight }

/-- The drawing surface: the color palette dictionary plus the list of
elements drawn so far, in order. -/
structure CanvasState where
  palette : List (String × String)
  elems : List Elem
deriving DecidableEq, Repr

/-- Dictionary read `colors[k]` (every key used by the script is present,
so the `""` default is never exercised). -/
def lookupColor (st : CanvasState) (k : String) : String :=
  (st.palette.lookup k).getD ""

/-- Appending drawn elements to the surface; the only state change any
drawing operation performs.  The palette is untouched. -/
def addElems (st : CanvasState) (es : List Elem) : CanvasState :=
  { st with elems := st.elems ++ es }

/-- The color scheme dictionary, as defined at the top of the script. -/
def colors : List (String × String) :=
  [("core", "#4A90E2"),
   ("qa", "#50E3C2"),
   ("agents", "#F5A623"),
   ("config", "#7ED321"),
   ("docs", "#9013FE"),
   ("db", "#BD10E0"),
   ("test", "#4A90E2")]

/-!
The script body is the exact sequence of drawing calls, with the source's
`y_pos` bookkeeping reproduced by let-shadowing, and colors read from the
surface's palette at each call, as in the source.  It is split into
consecutive sections (each covering a contiguous range of source lines)
composed in order by `runScript`; each section takes and returns the pair
of the surface and the current `y_pos`.
-/

/-- Source lines 12-58: the two title texts, `y_pos = 105`, the root-path
box, `y_pos -= 8`. -/
def scriptTitleRoot (st : CanvasState) : CanvasState × ℚ :=
  let st := addElems st [Elem.text
    (axText 50 118 "AI Governance Navigator - Directory Structure" 24 Weight.bold)]
  let st := addElems st [Elem.text
    (axText 50 115 "Complete Project Architecture Overview" 14)]
  let y_pos : ℚ := 105
  let st := addElems st
    (draw_box 35 y_pos 30 5 "C:\\code\\AIGovNav\\" (lookupColor st "config") 12)
  let y_pos := y_pos - 8
  (st, y_pos)

/-- Source lines 60-72: the core, QA and agents boxes, `y_pos -= 30`. -/
def scriptMainSections (p : CanvasState × ℚ) : CanvasState × ℚ :=
  let st := p.1
  let y_pos := p.2
  let st := addElems st
    (draw_box 5 (y_pos - 25) 28 25
      "📁 src/\n\nbackend/\n• routes/\n• services/\n• middleware/\n• scripts/\n• data/\n\nfrontend/\n• pages/\n• components/\n• contexts/\n• services/"
      (lookupColor st "core") 11)
  let st := addElems st
    (draw_box 35 (y_pos - 25) 28 25
      "📁 qa/\n\nvalidators/\n• EUAIActCompliance\n• LLMGovernance\n• PrismaIntegrity\n\ncategories/\n• security/\n• performance/\n• quality/\n• architecture/\n• testing/"
      (lookupColor st "qa") 11)
  let st := addElems st
    (draw_box 65 (y_pos - 25) 28 25
      "🤖 Agents\n\nproduct/\n• user-stories\n• api-specs\n• requirements\n\nengineer/\n• swarm-config\n\ndesigner/\n• swarm-config"
      (lookupColor st "agents") 11)
  let y_pos := y_pos - 30
  (st, y_pos)

/-- Source lines 74-85: the database, tests and config-files boxes,
`y_pos -= 20`. -/
def scriptDataTestConfig (p : CanvasState × ℚ) : CanvasState × ℚ :=
  let st := p.1
  let y_pos := p.2
  let st := addElems st
    (draw_box 5 (y_pos - 15) 28 15
      "🗄️ prisma/\n\nschema.prisma\n• AISystem\n• User\n• PolicyPack\n• AuditLog\n• Document"
      (lookupColor st "db") 11)
  let st := addElems st
    (draw_box 35 (y_pos - 15) 28 15
      "🧪 tests/\n\nunit/\n• intake.test.ts\n• riskClassification.test.ts\n\nintegration/\n• auth.test.ts"
      (lookupColor st "test") 11)
  let st := addElems st
    (draw_box 65 (y_pos - 15) 28 15
      "⚙️ Config Files\n\n• docker-compose.yml\n• package.json\n• tsconfig.json\n• vite.config.ts\n• vitest.config.ts\n• tailwind.config.js"
      (lookupColor st "config") 11)
  let y_pos := y_pos - 20
  (st, y_pos)

/-- Source lines 87-94: the reference and docs boxes, `y_pos -= 20`. -/
def scriptDocsRef (p : CanvasState × ℚ) : CanvasState × ℚ :=
  let st := p.1
  let y_pos := p.2
  let st := addElems st
    (draw_box 5 (y_pos - 15) 42 15
      "📚 Reference/\n\nMarket Research/\n• AIGovNav Research docs\n• Images & diagrams\n• Conversion reports\n\nReference Images\n• AI Registry.png\n• dashboard.png\n• swarm diagrams"
      (lookupColor st "docs") 11)
  let st := addElems st
    (draw_box 50 (y_pos - 15) 43 15
      "📝 Documentation\n\n• CLAUDE.md - AI instructions\n• QA_CALIBRATION_SUMMARY.md\n• CTO_DEMO_MATERIALS.md\n• replit-setup-guide.md\n• setup-github.md\n• start-local.md\n• swarm-orchestrator.md"
      (lookupColor st "docs") 11)
  let y_pos := y_pos - 20
  (st, y_pos)

/-- Source lines 96-109: the DevOps box, the statistics box and its seven
annotation texts (`y_pos` unchanged). -/
def scriptDevopsStats (p : CanvasState × ℚ) : CanvasState × ℚ :=
  let st := p.1
  let y_pos := p.2
  let st := addElems st
    (draw_box 5 (y_pos - 10) 28 10
      "🚀 DevOps\n\n.github/workflows/\n• qa.yml\n\n.claude/\n• settings.local.json"
      (lookupColor st "config") 11)
  let stats_y := y_pos - 10
  let st := addElems st (draw_box 35 stats_y 58 10 "" (lookupColor st "qa") 11)
  let st := addElems st [Elem.text
    (axText 64 (stats_y + 7) "📊 QA Statistics" 12 Weight.bold)]
  let st := addElems st [Elem.text (axText 45 (stats_y + 4) "147+ Checkpoints" 10)]
  let st := addElems st [Elem.text (axText 64 (stats_y + 4) "8 Validators" 10)]
  let st := addElems st [Elem.text (axText 83 (stats_y + 4) "3 Swarm Agents" 10)]
  let st := addElems st [Elem.text (axText 45 (stats_y + 3/2) "27 EU AI Act" 10)]
  let st := addElems st [Elem.text (axText 64 (stats_y + 3/2) "23 LLM Gov" 10)]
  let st := addElems st [Elem.text (axText 83 (stats_y + 3/2) "14 Prisma" 10)]
  (st, y_pos)

/-- Source lines 111-141: the technology-stack box with its thirteen texts,
then the key-features box with its five texts (`y_pos` unchanged). -/
def scriptTechFeatures (p : CanvasState × ℚ) : CanvasState × ℚ :=
  let st := p.1
  let y_pos := p.2
  let tech_y := y_pos - 25
  let st := addElems st (draw_box 5 tech_y 88 12 "" (lookupColor st "core") 11)
  let st := addElems st [Elem.text
    (axText 49 (tech_y + 10) "💻 Technology Stack" 12 Weight.bold)]
  let st := addElems st [Elem.text (axText 20 (tech_y + 7) "Frontend:" 10 Weight.bold)]
  let st := addElems st [Elem.text (axText 20 (tech_y + 5) "• React 18 + TypeScript" 9)]
  let st := addElems st [Elem.text (axText 20 (tech_y + 7/2) "• Vite + TailwindCSS" 9)]
  let st := addElems st [Elem.text (axText 20 (tech_y + 2) "• React Router + Zustand" 9)]
  let st := addElems st [Elem.text (axText 49 (tech_y + 7) "Backend:" 10 Weight.bold)]
  let st := addElems st [Elem.text (axText 49 (tech_y + 5) "• Node.js + Express" 9)]
  let st := addElems st [Elem.text (axText 49 (tech_y + 7/2) "• Prisma + PostgreSQL" 9)]
  let st := addElems st [Elem.text (axText 49 (tech_y + 2) "• Supabase Auth + JWT" 9)]
  let st := addElems st [Elem.text (axText 78 (tech_y + 7) "DevOps:" 10 Weight.bold)]
  let st := addElems st [Elem.text (axText 78 (tech_y + 5) "• Docker + GitHub Actions" 9)]
  let st := addElems st [Elem.text (axText 78 (tech_y + 7/2) "• Vitest + ESLint" 9)]
  let st := addElems st [Elem.text (axText 78 (tech_y + 2) "• Context7 Integration" 9)]
  let features_y := tech_y - 8
  let st := addElems st (draw_box 5 features_y 88 6 "" (lookupColor st "agents") 11)
  let st := addElems st [Elem.text
    (axText 49 (features_y + 9/2) "🎯 Key Features" 12 Weight.bold)]
  let st := addElems st [Elem.text
    (axText 25 (features_y + 2) "✓ EU AI Act Compliance Engine" 9)]
  let st := addElems st [Elem.text
    (axText 25 (features_y + 1/2) "✓ Real-time LLM/Prompt Monitoring" 9)]
  let st := addElems st [Elem.text
    (axText 68 (features_y + 2) "✓ Multi-Agent Swarm Architecture" 9)]
  let st := addElems st [Elem.text
    (axText 68 (features_y + 1/2) "✓ Automated Risk Classification" 9)]
  (st, y_pos)

/-- Source lines 143-155: the three dashed connector lines and the two
footer texts. -/
def scriptLinesFooter (p : CanvasState × ℚ) : CanvasState × ℚ :=
  let st := p.1
  let y_pos := p.2
  let st := addElems st [Elem.line ⟨19, 35, y_pos + 10, y_pos + 10⟩]
  let st := addElems st [Elem.line ⟨49, 49, y_pos + 5, y_pos - 5⟩]
  let st := addElems st [Elem.line ⟨65, 33, y_pos + 10, y_pos + 10⟩]
  let st := addElems st [Elem.text
    (axText 50 2 "AI Governance Navigator - Enterprise-grade AI Governance Platform" 10)]
  let st := addElems st [Elem.text
    (axText 50 (1/2) "Compliant with EU AI Act | Real-time Monitoring | Automated Documentation" 9)]
  (st, y_pos)

/-- The whole drawing phase: the sections in source order. -/
def runScript (st : CanvasState) : CanvasState :=
  (scriptLinesFooter (scriptTechFeatures (scriptDevopsStats (scriptDocsRef
    (scriptDataTestConfig (scriptMainSections (scriptTitleRoot st))))))).1

/-- Everything the process could read from its surroundings.  The script
reads none of it: no CLI arguments, no environment variables, no clock, no
randomness. -/
structure Env where
  argv : List String
  envVars : List (String × String)
  clock : ℕ
  randomSeed : ℕ
deriving Inhabited

/-- The fresh surface at startup: the palette dictionary and no elements. -/
def initState : CanvasState :=
  { palette := colors, elems := [] }

/-- A run of the drawing phase from a fresh surface, in any environment.
The environment is ignored, as the script consumes no input. -/
def render (_e : Env) : CanvasState :=
  runScript initState

/-- The full trace of elements drawn by the script. -/
def elems : List Elem :=
  (render default).elems

/-- A point lies within the canvas extent `ax.set_xlim(0, 100)`,
`ax.set_ylim(0, 120)`. -/
def pointInCanvas (x y : ℚ) : Prop :=
  0 ≤ x ∧ x ≤ 100 ∧ 0 ≤ y ∧ y ≤ 120

/-- A point lies within the horizontal extent and below the top edge. -/
def pointInX (x y : ℚ) : Prop :=
  0 ≤ x ∧ x ≤ 100 ∧ y ≤ 120

/-- A drawn element has all its coordinates within the canvas extent: for a
patch, the whole rectangle `[x, x+width] × [y, y+height]`; for a text, its
anchor point; for a connector line, both endpoints. -/
def elemInCanvas : Elem → Prop
  | Elem.patch p =>
      pointInCanvas p.x p.y ∧ pointInCanvas (p.x + p.width) (p.y + p.height)
  | Elem.text t => pointInCanvas t.x t.y
  | Elem.line l => pointInCanvas l.x1 l.y1 ∧ pointInCanvas l.x2 l.y2

/-- A drawn element stays within the horizontal extent and below the top
edge (it may still stick out below `y = 0`). -/
def elemInX : Elem → Prop
  | Elem.patch p => pointInX p.x p.y ∧ pointInX (p.x + p.width) (p.y + p.height)
  | Elem.text t => pointInX t.x t.y
  | Elem.line l => pointInX l.x1 l.y1 ∧ pointInX l.x2 l.y2

/-- The patch of a drawn element, when it is one. -/
def patchOf : Elem → Option Patch
  | Elem.patch p => some p
  | Elem.text _ => none
  | Elem.line _ => none

/-- The elements of the Key Features callout: its box (drawn at
`features_y = -6`), the box's centered empty label, and the five feature
texts — all drawn at negative `y`. -/
def keyFeaturesElems : List Elem :=
  [Elem.patch (drawBoxPatch 5 (-6) 88 6 "#F5A623" "round"),
   Elem.text { x := 49, y := -3, content := "", fontsize := 11, weight := Weight.bold },
   Elem.text (axText 49 (-3/2) "🎯 Key Features" 12 Weight.bold),
   Elem.text (axText 25 (-4) "✓ EU AI Act Compliance Engine" 9),
   Elem.text (axText 25 (-11/2) "✓ Real-time LLM/Prompt Monitoring" 9),
   Elem.text (axText 68 (-4) "✓ Multi-Agent Swarm Architecture" 9),
   Elem.text (axText 68 (-11/2) "✓ Automated Risk Classification" 9)]

/-! ### The save / print tail of the script

After drawing, the script calls `plt.savefig(path, dpi=150,
bbox_inches='tight', facecolor='white', edgecolor='none')` and then
`print(...)`.  Any exception raised by `savefig` propagates unhandled: the
`print` is never reached and the process terminates with the error. -/

/-- The hard-coded output path passed to `plt.savefig`. -/
def outputPath : String := "C:\\code\\AIGovNav\\Reference\\directory_structure.png"

/-- The literal string printed by the final `print(...)`. -/
def confirmLine : String :=
  "Directory structure diagram saved to: C:\\code\\AIGovNav\\Reference\\directory_structure.png"

/-- The arguments of the `plt.savefig` call (the figure itself was created
with `figsize=(20, 24), dpi=100`). -/
structure SaveArgs where
  path : String
  dpi : ℚ
  bbox_inches : String
  facecolor : String
  edgecolor : String
deriving DecidableEq, Repr

/-- The recorded `plt.savefig` call of the script. -/
def savefigCall : SaveArgs :=
  { path := outputPath, dpi := 150, bbox_inches := "tight",
    facecolor := "white", edgecolor := "none" }

/-- The `figsize=(20, 24)` of `plt.subplots`. -/
def figsize : ℚ × ℚ := (20, 24)

/-- The `dpi=100` of `plt.subplots`. -/
def figureDpi : ℚ := 100

/-- Result of running the script's tail: the lines printed to the console,
and either normal termination or an uncaught error. -/
structure RunResult where
  printed : List String
  exit : Except String Unit
deriving Repr

/-- Exit status of the process: `0` on normal termination, nonzero when an
uncaught exception terminates it. -/
def exitCode (r : RunResult) : ℕ :=
  match r.exit with
  | Except.ok _ => 0
  | Except.error _ => 1

/-- The script's tail: `plt.savefig(outputPath, ...)` followed by
`print(confirmLine)`.  `save` models the I/O outcome of writing the given
path.  A failure propagates: the print is not executed and the process
terminates with the error; on success exactly the one confirmation line is
printed. -/
def runTail (save : String → Except String Unit) : RunResult :=
  match save savefigCall.path with
  | Except.error e => { printed := [], exit := Except.error e }
  | Except.ok _ => { printed := [confirmLine], exit := Except.ok () }

/-! ### Helper lemmas -/

/-- `String.splitOnAux` with separator `"\n"` never splits while the
remaining characters contain no newline: it just runs to the end of the
string and emits the rest as one piece. -/
theorem splitOnAux_no_newline : ∀ (r m l : List Char) (acc : List String),
    (∀ c ∈ r, c ≠ '\n') →
    String.splitOnAux ⟨l ++ m ++ r⟩ "\n" ⟨String.utf8Len l⟩
        ⟨String.utf8Len l + String.utf8Len m⟩ 0 acc
      = ((⟨m ++ r⟩ : String) :: acc).reverse
  | [], m, l, acc, _ => by
    unfold String.splitOnAux
    rw [if_pos (by simp)]
    rw [show (⟨l ++ m ++ []⟩ : String).extract ⟨String.utf8Len l⟩
          ⟨String.utf8Len l + String.utf8Len m⟩ = ⟨m⟩ from by
        simpa using String.extract_of_valid l m []]
    simp
  | c :: r, m, l, acc, h => by
    unfold String.splitOnAux
    rw [if_neg (by
      simpa using (String.atEnd_of_valid (l ++ m) (c :: r)).not.2 (by simp))]
    rw [if_neg (by
      have hc : c ≠ '\n' := h c (List.mem_cons_self ..)
      have hg : (⟨l ++ m ++ c :: r⟩ : String).get ⟨String.utf8Len l + String.utf8Len m⟩
          = c := by
        simpa using String.get_of_valid (l ++ m) (c :: r)
      rw [hg]
      simp [hc, show "\n".get 0 = '\n' from rfl])]
    have hnext : (⟨l ++ m ++ c :: r⟩ : String).next
        ((⟨String.utf8Len l + String.utf8Len m⟩ : String.Pos) - (0 : String.Pos))
        = ⟨String.utf8Len l + (String.utf8Len m + c.utf8Size)⟩ := by
      simpa [Nat.add_assoc] using String.next_of_valid (l ++ m) c r
    rw [hnext]
    simpa [Nat.add_assoc] using
      splitOnAux_no_newline r (m ++ [c]) l acc (fun d hd => h d (List.mem_cons_of_mem _ hd))

/-- Splitting a newline-free string on `"\n"` yields the single-element list
holding the whole string (in particular `"".splitOn "\n" = [""]`, mirroring
Python's `''.split('\n') == ['']`). -/
theorem splitOn_eq_single (s : String) (h : '\n' ∉ s.data) :
    s.splitOn "\n" = [s] := by
  obtain ⟨d⟩ := s
  have := splitOnAux_no_newline d [] [] [] (fun c hc => by rintro rfl; exact h hc)
  simpa [String.splitOn] using this

/-- On a newline-free text, `draw_box` renders exactly one text element: a
bold line at the given font size, centered at the box's vertical midpoint. -/
theorem drawBoxTexts_no_newline (x y w h : ℚ) (text : String) (fs : ℚ)
    (hnl : '\n' ∉ text.data) :
    drawBoxTexts x y w h text fs
      = [{ x := x + w / 2, y := y + h / 2, content := text, fontsize := fs,
           weight := Weight.bold }] := by
  simp only [drawBoxTexts, splitOn_eq_single text hnl, List.enum, List.enumFrom,
    List.map_cons, List.map_nil, List.length_cons, List.length_nil]
  norm_num
  ring

/-- `draw_box` on the empty text: one patch and one (empty, bold, centered)
text element. -/
theorem draw_box_empty (x y w h : ℚ) (color : String) (fs : ℚ) (style : String) :
    draw_box x y w h "" color fs style
      = [Elem.patch (drawBoxPatch x y w h color style),
         Elem.text { x := x + w / 2, y := y + h / 2, content := "",
                     fontsize := fs, weight := Weight.bold }] := by
  simp [draw_box, drawBoxTexts_no_newline x y w h "" fs (by simp)]

/-- Index-wise description of the text elements of `draw_box`. -/
theorem drawBoxTexts_getElem? (x y w h : ℚ) (text : String) (fs : ℚ) (i : ℕ) :
    (drawBoxTexts x y w h text fs)[i]? =
      ((text.splitOn "\n")[i]?).map fun line =>
        { x := x + w / 2,
          y := y + h - (i + 1) * (h / ((text.splitOn "\n").length + 1)),
          content := line,
          fontsize := if i = 0 then fs else fs - 1,
          weight := if i = 0 then Weight.bold else Weight.normal } := by
  simp only [drawBoxTexts, List.getElem?_map, List.getElem?_enum]
  rcases (text.splitOn "\n")[i]? with _ | line <;> rfl

/-- Every text element of `draw_box` is horizontally centered in the box and
vertically strictly inside it (provided the box height is positive). -/
theorem mem_drawBoxTexts_bounds {x y w h fs : ℚ} {text : String} {t : TextElem}
    (ht : t ∈ drawBoxTexts x y w h text fs) (hh : 0 < h) :
    t.x = x + w / 2 ∧ y < t.y ∧ t.y < y + h := by
  simp only [drawBoxTexts] at ht
  obtain ⟨⟨i, line⟩, hp, rfl⟩ := List.mem_map.1 ht
  have hsome := List.mem_enum_iff_getElem?.1 hp
  obtain ⟨hi, -⟩ := List.getElem?_eq_some.1 hsome
  refine ⟨rfl, ?_, ?_⟩
  · show y < y + h - (↑i + 1) * (h / (↑(text.splitOn "\n").length + 1))
    set n : ℕ := (text.splitOn "\n").length with hn
    have hq : (0:ℚ) < h / ((n:ℚ) + 1) := by positivity
    have hi' : ((i:ℚ) + 1) ≤ (n:ℚ) := by exact_mod_cast hi
    have hub : ((i:ℚ) + 1) * (h / ((n:ℚ) + 1)) ≤ (n:ℚ) * (h / ((n:ℚ) + 1)) :=
      mul_le_mul_of_nonneg_right hi' hq.le
    have h2 : ((n:ℚ)) * (h / ((n:ℚ) + 1)) = h - h / ((n:ℚ) + 1) := by
      field_simp
      ring
    linarith
  · show y + h - (↑i + 1) * (h / (↑(text.splitOn "\n").length + 1)) < y + h
    set n : ℕ := (text.splitOn "\n").length with hn
    have hq : (0:ℚ) < h / ((n:ℚ) + 1) := by positivity
    have hlb : (0:ℚ) < ((i:ℚ) + 1) * (h / ((n:ℚ) + 1)) := by positivity
    linarith

/-- All elements drawn by a `draw_box` call whose rectangle lies inside the
canvas (with positive height and nonnegative width) are inside the canvas. -/
theorem draw_box_mem_inCanvas {x y w h fs : ℚ} {text color style : String}
    (hx0 : 0 ≤ x) (hx1 : x + w ≤ 100) (hy0 : 0 ≤ y) (hy1 : y + h ≤ 120)
    (hw : 0 ≤ w) (hh : 0 < h) {e : Elem}
    (he : e ∈ draw_box x y w h text color fs style) :
    elemInCanvas e := by
  rcases List.mem_cons.1 he with rfl | he'
  · simp only [elemInCanvas, drawBoxPatch, pointInCanvas]
    refine ⟨⟨hx0, by linarith, hy0, by linarith⟩, ⟨by linarith, hx1, by linarith, hy1⟩⟩
  · obtain ⟨t, ht, rfl⟩ := List.mem_map.1 he'
    obtain ⟨htx, hty1, hty2⟩ := mem_drawBoxTexts_bounds ht hh
    exact ⟨by rw [htx]; linarith, by rw [htx]; linarith, by linarith, by linarith⟩

/-- `lookupColor` on a literal surface reads the palette dictionary. -/
theorem lookupColor_mk (p : List (String × String)) (es : List Elem) (k : String) :
    lookupColor ⟨p, es⟩ k = (p.lookup k).getD "" := rfl

theorem colors_core : (colors.lookup "core").getD "" = "#4A90E2" := rfl

theorem colors_qa : (colors.lookup "qa").getD "" = "#50E3C2" := rfl

theorem colors_agents : (colors.lookup "agents").getD "" = "#F5A623" := rfl

theorem colors_config : (colors.lookup "config").getD "" = "#7ED321" := rfl

theorem colors_docs : (colors.lookup "docs").getD "" = "#9013FE" := rfl

theorem colors_db : (colors.lookup "db").getD "" = "#BD10E0" := rfl

theorem colors_test : (colors.lookup "test").getD "" = "#4A90E2" := rfl

/-- `lookupColor` reads only the palette of the surface. -/
theorem lookupColor_def (st : CanvasState) (k : String) :
    lookupColor st k = (st.palette.lookup k).getD "" := rfl

theorem lookupColor_of_palette {st : CanvasState} (h : st.palette = colors)
    (k : String) : lookupColor st k = (colors.lookup k).getD "" := by
  rw [lookupColor_def, h]

/-- A predicate holding at a single element holds on its singleton chunk. -/
theorem forall_mem_single {P : Elem → Prop} {a : Elem} (h : P a) :
    ∀ e ∈ [a], P e := by
  intro e he
  rw [List.mem_singleton] at he
  subst he
  exact h

/-! Per-section facts: each section leaves the palette untouched, updates
`y_pos` as in the source, and appends its own chunk of elements. -/

theorem scriptTitleRoot_palette (st : CanvasState) :
    (scriptTitleRoot st).1.palette = st.palette := rfl

theorem scriptMainSections_palette (p : CanvasState × ℚ) :
    (scriptMainSections p).1.palette = p.1.palette := rfl

theorem scriptDataTestConfig_palette (p : CanvasState × ℚ) :
    (scriptDataTestConfig p).1.palette = p.1.palette := rfl

theorem scriptDocsRef_palette (p : CanvasState × ℚ) :
    (scriptDocsRef p).1.palette = p.1.palette := rfl

theorem scriptDevopsStats_palette (p : CanvasState × ℚ) :
    (scriptDevopsStats p).1.palette = p.1.palette := rfl

theorem scriptTechFeatures_palette (p : CanvasState × ℚ) :
    (scriptTechFeatures p).1.palette = p.1.palette := by
  simp only [scriptTechFeatures, addElems]

theorem scriptLinesFooter_palette (p : CanvasState × ℚ) :
    (scriptLinesFooter p).1.palette = p.1.palette := rfl

theorem scriptTitleRoot_snd (st : CanvasState) :
    (scriptTitleRoot st).2 = 105 - 8 := rfl

theorem scriptMainSections_snd (p : CanvasState × ℚ) :
    (scriptMainSections p).2 = p.2 - 30 := rfl

theorem scriptDataTestConfig_snd (p : CanvasState × ℚ) :
    (scriptDataTestConfig p).2 = p.2 - 20 := rfl

theorem scriptDocsRef_snd (p : CanvasState × ℚ) :
    (scriptDocsRef p).2 = p.2 - 20 := rfl

theorem scriptDevopsStats_snd (p : CanvasState × ℚ) :
    (scriptDevopsStats p).2 = p.2 := rfl

theorem scriptTechFeatures_snd (p : CanvasState × ℚ) :
    (scriptTechFeatures p).2 = p.2 := by
  simp only [scriptTechFeatures, addElems]

theorem scriptLinesFooter_snd (p : CanvasState × ℚ) :
    (scriptLinesFooter p).2 = p.2 := rfl

theorem scriptTitleRoot_elems (st : CanvasState) :
    (scriptTitleRoot st).1.elems = st.elems
      ++ ([Elem.text (axText 50 118 "AI Governance Navigator - Directory Structure" 24 Weight.bold)]
      ++ ([Elem.text (axText 50 115 "Complete Project Architecture Overview" 14)]
      ++ (draw_box 35 105 30 5 "C:\\code\\AIGovNav\\" (lookupColor st "config") 12 "round"))) := by
  simp [scriptTitleRoot, addElems, lookupColor_def]

theorem scriptMainSections_elems (p : CanvasState × ℚ) :
    (scriptMainSections p).1.elems = p.1.elems
      ++ (draw_box 5 (p.2 - 25) 28 25 "📁 src/\n\nbackend/\n• routes/\n• services/\n• middleware/\n• scripts/\n• data/\n\nfrontend/\n• pages/\n• components/\n• contexts/\n• services/" (lookupColor p.1 "core") 11 "round"
      ++ (draw_box 35 (p.2 - 25) 28 25 "📁 qa/\n\nvalidators/\n• EUAIActCompliance\n• LLMGovernance\n• PrismaIntegrity\n\ncategories/\n• security/\n• performance/\n• quality/\n• architecture/\n• testing/" (lookupColor p.1 "qa") 11 "round"
      ++ (draw_box 65 (p.2 - 25) 28 25 "🤖 Agents\n\nproduct/\n• user-stories\n• api-specs\n• requirements\n\nengineer/\n• swarm-config\n\ndesigner/\n• swarm-config" (lookupColor p.1 "agents") 11 "round"))) := by
  simp [scriptMainSections, addElems, lookupColor_def]

theorem scriptDataTestConfig_elems (p : CanvasState × ℚ) :
    (scriptDataTestConfig p).1.elems = p.1.elems
      ++ (draw_box 5 (p.2 - 15) 28 15 "🗄️ prisma/\n\nschema.prisma\n• AISystem\n• User\n• PolicyPack\n• AuditLog\n• Document" (lookupColor p.1 "db") 11 "round"
      ++ (draw_box 35 (p.2 - 15) 28 15 "🧪 tests/\n\nunit/\n• intake.test.ts\n• riskClassification.test.ts\n\nintegration/\n• auth.test.ts" (lookupColor p.1 "test") 11 "round"
      ++ (draw_box 65 (p.2 - 15) 28 15 "⚙️ Config Files\n\n• docker-compose.yml\n• package.json\n• tsconfig.json\n• vite.config.ts\n• vitest.config.ts\n• tailwind.config.js" (lookupColor p.1 "config") 11 "round"))) := by
  simp [scriptDataTestConfig, addElems, lookupColor_def]

theorem scriptDocsRef_elems (p : CanvasState × ℚ) :
    (scriptDocsRef p).1.elems = p.1.elems
      ++ (draw_box 5 (p.2 - 15) 42 15 "📚 Reference/\n\nMarket Research/\n• AIGovNav Research docs\n• Images & diagrams\n• Conversion reports\n\nReference Images\n• AI Registry.png\n• dashboard.png\n• swarm diagrams" (lookupColor p.1 "docs") 11 "round"
      ++ (draw_box 50 (p.2 - 15) 43 15 "📝 Documentation\n\n• CLAUDE.md - AI instructions\n• QA_CALIBRATION_SUMMARY.md\n• CTO_DEMO_MATERIALS.md\n• replit-setup-guide.md\n• setup-github.md\n• start-local.md\n• swarm-orchestrator.md" (lookupColor p.1 "docs") 11 "round")) := by
  simp [scriptDocsRef, addElems, lookupColor_def]

theorem scriptDevopsStats_elems (p : CanvasState × ℚ) :
    (scriptDevopsStats p).1.elems = p.1.elems
      ++ (draw_box 5 (p.2 - 10) 28 10 "🚀 DevOps\n\n.github/workflows/\n• qa.yml\n\n.claude/\n• settings.local.json" (lookupColor p.1 "config") 11 "round"
      ++ (draw_box 35 (p.2 - 10) 58 10 "" (lookupColor p.1 "qa") 11 "round"
      ++ ([Elem.text (axText 64 (p.2 - 10 + 7) "📊 QA Statistics" 12 Weight.bold)]
      ++ ([Elem.text (axText 45 (p.2 - 10 + 4) "147+ Checkpoints" 10)]
      ++ ([Elem.text (axText 64 (p.2 - 10 + 4) "8 Validators" 10)]
      ++ ([Elem.text (axText 83 (p.2 - 10 + 4) "3 Swarm Agents" 10)]
      ++ ([Elem.text (axText 45 (p.2 - 10 + 3/2) "27 EU AI Act" 10)]
      ++ ([Elem.text (axText 64 (p.2 - 10 + 3/2) "23 LLM Gov" 10)]
      ++ ([Elem.text (axText 83 (p.2 - 10 + 3/2) "14 Prisma" 10)]))))))))) := by
  simp [scriptDevopsStats, addElems, lookupColor_def]

theorem scriptTechFeatures_elems (p : CanvasState × ℚ) :
    (scriptTechFeatures p).1.elems = p.1.elems
      ++ (draw_box 5 (p.2 - 25) 88 12 "" (lookupColor p.1 "core") 11 "round"
      ++ ([Elem.text (axText 49 (p.2 - 25 + 10) "💻 Technology Stack" 12 Weight.bold)]
      ++ ([Elem.text (axText 20 (p.2 - 25 + 7) "Frontend:" 10 Weight.bold)]
      ++ ([Elem.text (axText 20 (p.2 - 25 + 5) "• React 18 + TypeScript" 9)]
      ++ ([Elem.text (axText 20 (p.2 - 25 + 7/2) "• Vite + TailwindCSS" 9)]
      ++ ([Elem.text (axText 20 (p.2 - 25 + 2) "• React Router + Zustand" 9)]
      ++ ([Elem.text (axText 49 (p.2 - 25 + 7) "Backend:" 10 Weight.bold)]
      ++ ([Elem.text (axText 49 (p.2 - 25 + 5) "• Node.js + Express" 9)]
      ++ ([Elem.text (axText 49 (p.2 - 25 + 7/2) "• Prisma + PostgreSQL" 9)]
      ++ ([Elem.text (axText 49 (p.2 - 25 + 2) "• Supabase Auth + JWT" 9)]
      ++ ([Elem.text (axText 78 (p.2 - 25 + 7) "DevOps:" 10 Weight.bold)]
      ++ ([Elem.text (axText 78 (p.2 - 25 + 5) "• Docker + GitHub Actions" 9)]
      ++ ([Elem.text (axText 78 (p.2 - 25 + 7/2) "• Vitest + ESLint" 9)]
      ++ ([Elem.text (axText 78 (p.2 - 25 + 2) "• Context7 Integration" 9)]
      ++ (draw_box 5 (p.2 - 25 - 8) 88 6 "" (lookupColor p.1 "agents") 11 "round"
      ++ ([Elem.text (axText 49 (p.2 - 25 - 8 + 9/2) "🎯 Key Features" 12 Weight.bold)]
      ++ ([Elem.text (axText 25 (p.2 - 25 - 8 + 2) "✓ EU AI Act Compliance Engine" 9)]
      ++ ([Elem.text (axText 25 (p.2 - 25 - 8 + 1/2) "✓ Real-time LLM/Prompt Monitoring" 9)]
      ++ ([Elem.text (axText 68 (p.2 - 25 - 8 + 2) "✓ Multi-Agent Swarm Architecture" 9)]
      ++ ([Elem.text (axText 68 (p.2 - 25 - 8 + 1/2) "✓ Automated Risk Classification" 9)])))))))))))))))))))) := by
  simp [scriptTechFeatures, addElems, lookupColor_def]

theorem scriptLinesFooter_elems (p : CanvasState × ℚ) :
    (scriptLinesFooter p).1.elems = p.1.elems
      ++ ([Elem.line ⟨19, 35, p.2 + 10, p.2 + 10⟩]
      ++ ([Elem.line ⟨49, 49, p.2 + 5, p.2 - 5⟩]
      ++ ([Elem.line ⟨65, 33, p.2 + 10, p.2 + 10⟩]
      ++ ([Elem.text (axText 50 2 "AI Governance Navigator - Enterprise-grade AI Governance Platform" 10)]
      ++ ([Elem.text (axText 50 (1/2) "Compliant with EU AI Act | Real-time Monitoring | Automated Documentation" 9)]))))) := by
  simp [scriptLinesFooter, addElems]

/-! ### Claims -/

/-- C5: the script reads no input (no CLI arguments, no environment
variables, no clock, no randomness), so any two runs draw the identical
sequence of elements with identical arguments. -/
theorem render_deterministic (e₁ e₂ : Env) : render e₁ = render e₂ := rfl

/-- C9: the color palette maps the seven category names to their literal
color strings; no operation of the script mutates it — appending drawn
elements leaves the palette untouched, and after running the whole script
the palette equals its initial value. -/
theorem palette_never_mutated :
    (∀ st es, (addElems st es).palette = st.palette) ∧
    (∀ st, (runScript st).palette = st.palette) ∧
    (runScript { palette := colors, elems := [] }).palette = colors ∧
    colors.map Prod.fst = ["core", "qa", "agents", "config", "docs", "db", "test"] := by
  have h2 : ∀ st, (runScript st).palette = st.palette := by
    intro st
    simp only [runScript, scriptLinesFooter_palette, scriptTechFeatures_palette,
      scriptDevopsStats_palette, scriptDocsRef_palette, scriptDataTestConfig_palette,
      scriptMainSections_palette, scriptTitleRoot_palette]
  exact ⟨fun _ _ => rfl, h2, h2 _, rfl⟩

/-- C3: if the save fails, the failure propagates unhandled — the error is
reported as the process's uncaught termination, the exit status is nonzero,
and the confirmation line is not printed. -/
theorem save_failure_unhandled (save : String → Except String Unit) (e : String)
    (h : save savefigCall.path = Except.error e) :
    (runTail save).printed = [] ∧ (runTail save).exit = Except.error e ∧
    exitCode (runTail save) ≠ 0 := by
  simp [runTail, h, exitCode]

/-- Witness for C3 at a concrete failing save. -/
theorem save_failure_unhandled_witness :
    ((fun _ => Except.error "PermissionError" : String → Except String Unit)
        savefigCall.path = Except.error "PermissionError") ∧
    ((runTail fun _ => Except.error "PermissionError").printed = [] ∧
     (runTail fun _ => Except.error "PermissionError").exit
        = Except.error "PermissionError" ∧
     exitCode (runTail fun _ => Except.error "PermissionError") ≠ 0) :=
  ⟨rfl, save_failure_unhandled (fun _ => Except.error "PermissionError")
    "PermissionError" rfl⟩

/-- C4: on a successful save the script prints exactly the one confirmation
line, the process exits normally, and the printed line contains exactly the
output path string passed to the save call. -/
theorem save_success_confirmation (save : String → Except String Unit)
    (h : save savefigCall.path = Except.ok ()) :
    (runTail save).printed = [confirmLine] ∧
    exitCode (runTail save) = 0 ∧
    confirmLine = "Directory structure diagram saved to: " ++ outputPath := by
  refine ⟨by simp [runTail, h], by simp [runTail, h, exitCode], rfl⟩

/-- Witness for C4 at a concrete succeeding save. -/
theorem save_success_confirmation_witness :
    ((fun _ => Except.ok () : String → Except String Unit) savefigCall.path
        = Except.ok ()) ∧
    ((runTail fun _ => Except.ok ()).printed = [confirmLine] ∧
     exitCode (runTail fun _ => Except.ok ()) = 0 ∧
     confirmLine = "Directory structure diagram saved to: " ++ outputPath) :=
  ⟨rfl, save_success_confirmation (fun _ => Except.ok ()) rfl⟩

/-- C8: each `draw_box` call adds exactly one patch to the surface: the
rectangle at `(x, y)` of the given width and height, filled with the given
color at alpha 0.3 with a black border, rounded exactly when the style
argument is `"round"`. -/
theorem draw_box_single_patch (x y w h : ℚ) (text color : String) (fs : ℚ)
    (style : String) :
    (draw_box x y w h text color fs style).filterMap patchOf
      = [{ x := x, y := y, width := w, height := h, facecolor := color,
           edgecolor := "black", alpha := 3/10, linewidth := 3/2,
           rounded := style == "round" }] ∧
    ((drawBoxPatch x y w h color style).rounded = true ↔ style = "round") := by
  constructor
  · simp [draw_box, drawBoxPatch, patchOf, List.filterMap_map, Function.comp_def]
  · exact beq_iff_eq ..

/-- C6: splitting the text on newlines into `n` lines, `draw_box` centers
line `i` (0-indexed, top to bottom) at `y + height - (i+1) * height/(n+1)`,
and the next line sits exactly one gap `height/(n+1)` lower. -/
theorem draw_box_line_positions (x y w h : ℚ) (text : String) (fs : ℚ) (i : ℕ)
    (hi : i < (text.splitOn "\n").length) :
    ((drawBoxTexts x y w h text fs)[i]?).map TextElem.y
      = some (y + h - (i + 1) * (h / ((text.splitOn "\n").length + 1))) ∧
    (i + 1 < (text.splitOn "\n").length →
      ((drawBoxTexts x y w h text fs)[i + 1]?).map TextElem.y
        = some (y + h - (i + 1) * (h / ((text.splitOn "\n").length + 1))
            - h / ((text.splitOn "\n").length + 1))) := by
  constructor
  · rw [drawBoxTexts_getElem?, List.getElem?_eq_getElem hi]
    rfl
  · intro hj
    rw [drawBoxTexts_getElem?, List.getElem?_eq_getElem hj]
    simp only [Option.map_some', Option.some.injEq]
    push_cast
    ring

/-- Witness for C6 on the root-path box text at line index 0. -/
theorem draw_box_line_positions_witness :
    0 < ("C:\\code\\AIGovNav\\".splitOn "\n").length ∧
    (((drawBoxTexts 35 105 30 5 "C:\\code\\AIGovNav\\" 12)[0]?).map TextElem.y
      = some (105 + 5 - (((0:ℕ) : ℚ) + 1)
          * (5 / ((("C:\\code\\AIGovNav\\".splitOn "\n").length : ℚ) + 1))) ∧
     (0 + 1 < ("C:\\code\\AIGovNav\\".splitOn "\n").length →
      ((drawBoxTexts 35 105 30 5 "C:\\code\\AIGovNav\\" 12)[0 + 1]?).map TextElem.y
        = some (105 + 5 - (((0:ℕ) : ℚ) + 1)
            * (5 / ((("C:\\code\\AIGovNav\\".splitOn "\n").length : ℚ) + 1))
            - 5 / ((("C:\\code\\AIGovNav\\".splitOn "\n").length : ℚ) + 1)))) := by
  have hs : "C:\\code\\AIGovNav\\".splitOn "\n" = ["C:\\code\\AIGovNav\\"] :=
    splitOn_eq_single _ (by decide)
  exact ⟨by rw [hs]; decide,
    draw_box_line_positions 35 105 30 5 "C:\\code\\AIGovNav\\" 12 0 (by rw [hs]; decide)⟩

/-- C7: `draw_box` renders the first text line bold at the given font size
and every later line with normal weight at the strictly smaller size
`fontsize - 1`. -/
theorem draw_box_first_line_bold (x y w h : ℚ) (text : String) (fs : ℚ) (i : ℕ)
    (t : TextElem) (ht : (drawBoxTexts x y w h text fs)[i]? = some t) :
    (i = 0 → t.weight = Weight.bold ∧ t.fontsize = fs) ∧
    (i ≠ 0 → t.weight = Weight.normal ∧ t.fontsize = fs - 1 ∧ t.fontsize < fs) := by
  rw [drawBoxTexts_getElem?] at ht
  rcases hsplit : (text.splitOn "\n")[i]? with _ | line
  · rw [hsplit] at ht
    simp at ht
  · rw [hsplit] at ht
    simp only [Option.map_some', Option.some.injEq] at ht
    subst ht
    constructor
    · intro h0
      simp [h0]
    · intro hne
      refine ⟨by simp [hne], by simp [hne], ?_⟩
      simp only [hne, if_false]
      linarith

/-- Witness for C7 on the root-path box text at line index 0. -/
theorem draw_box_first_line_bold_witness :
    ((drawBoxTexts 35 105 30 5 "C:\\code\\AIGovNav\\" 12)[0]?
      = some (TextElem.mk (35 + 30 / 2) (105 + 5 / 2) "C:\\code\\AIGovNav\\"
          12 Weight.bold)) ∧
    ((0 = 0 → (TextElem.mk (35 + 30 / 2) (105 + 5 / 2) "C:\\code\\AIGovNav\\"
            12 Weight.bold).weight = Weight.bold ∧
          (TextElem.mk (35 + 30 / 2) (105 + 5 / 2) "C:\\code\\AIGovNav\\"
            12 Weight.bold).fontsize = 12) ∧
     (0 ≠ 0 → (TextElem.mk (35 + 30 / 2) (105 + 5 / 2) "C:\\code\\AIGovNav\\"
            12 Weight.bold).weight = Weight.normal ∧
          (TextElem.mk (35 + 30 / 2) (105 + 5 / 2) "C:\\code\\AIGovNav\\"
            12 Weight.bold).fontsize = 12 - 1 ∧
          (TextElem.mk (35 + 30 / 2) (105 + 5 / 2) "C:\\code\\AIGovNav\\"
            12 Weight.bold).fontsize < 12)) := by
  have ht : (drawBoxTexts 35 105 30 5 "C:\\code\\AIGovNav\\" 12)[0]?
      = some (TextElem.mk (35 + 30 / 2) (105 + 5 / 2) "C:\\code\\AIGovNav\\"
          12 Weight.bold) := by
    rw [drawBoxTexts_no_newline 35 105 30 5 "C:\\code\\AIGovNav\\" 12 (by decide)]
    norm_num
  exact ⟨ht, draw_box_first_line_bold 35 105 30 5 "C:\\code\\AIGovNav\\" 12 0 _ ht⟩

/-- C10: on a text with no newline — in particular the empty text of the
statistics, technology-stack and features boxes, since splitting the empty
string yields a single empty line — `draw_box` renders exactly one text
element: a single bold line centered at the box's vertical midpoint
`y + height/2`. -/
theorem draw_box_single_text_line (x y w h : ℚ) (text : String) (fs : ℚ)
    (hnl : '\n' ∉ text.data) :
    (drawBoxTexts x y w h text fs).length = 1 ∧
    drawBoxTexts x y w h text fs
      = [{ x := x + w / 2, y := y + h / 2, content := text, fontsize := fs,
           weight := Weight.bold }] := by
  have hd := drawBoxTexts_no_newline x y w h text fs hnl
  exact ⟨by rw [hd]; rfl, hd⟩

/-- Witness for C10 on the statistics box's empty text. -/
theorem draw_box_single_text_line_witness :
    ('\n' ∉ ("" : String).data) ∧
    ((drawBoxTexts 35 17 58 10 "" 11).length = 1 ∧
     drawBoxTexts 35 17 58 10 "" 11
       = [{ x := 35 + 58 / 2, y := 17 + 10 / 2, content := "", fontsize := 11,
            weight := Weight.bold }]) :=
  ⟨by decide, draw_box_single_text_line 35 17 58 10 "" 11 (by decide)⟩

/-- C1 fails as stated: the Key Features box is drawn at `y = -6`, so its
rectangle `[5, 93] × [-6, 0]` extends below the canvas extent. -/
theorem canvas_extent_counterexample : ¬ ∀ e ∈ elems, elemInCanvas e := by
  intro hall
  have hp5 : (scriptDevopsStats (scriptDocsRef (scriptDataTestConfig
      (scriptMainSections (scriptTitleRoot initState))))).1.palette = colors := by
    simp only [scriptDevopsStats_palette, scriptDocsRef_palette,
      scriptDataTestConfig_palette, scriptMainSections_palette,
      scriptTitleRoot_palette]
    rfl
  have hy5 : (scriptDevopsStats (scriptDocsRef (scriptDataTestConfig
      (scriptMainSections (scriptTitleRoot initState))))).2
      = 105 - 8 - 30 - 20 - 20 := by
    simp only [scriptDevopsStats_snd, scriptDocsRef_snd, scriptDataTestConfig_snd,
      scriptMainSections_snd, scriptTitleRoot_snd]
  have hmem : Elem.patch (drawBoxPatch 5 (-6) 88 6 "#F5A623" "round") ∈ elems := by
    simp only [elems, render, runScript]
    rw [scriptLinesFooter_elems]
    refine List.mem_append_left _ ?_
    rw [scriptTechFeatures_elems]
    refine List.mem_append_right _ ?_
    simp only [lookupColor_of_palette hp5, colors_agents, colors_core, hy5]
    rw [show ((105 : ℚ) - 8 - 30 - 20 - 20 - 25 - 8) = -6 from by norm_num]
    simp [draw_box]
  have hin := hall _ hmem
  norm_num [elemInCanvas, drawBoxPatch, pointInCanvas] at hin

/-- C1 (amended): every element drawn by the script lies within the canvas
extent except those of the Key Features callout (its box, the box's empty
centered label, and the five feature texts), which stay within the
horizontal extent and below the top edge but extend below `y = 0`. -/
theorem canvas_extent_amended :
    (∀ e ∈ elems, elemInCanvas e ∨ e ∈ keyFeaturesElems) ∧
    (∀ e ∈ keyFeaturesElems, elemInX e ∧ ¬ elemInCanvas e) := by
  constructor
  · have hy1 : (scriptTitleRoot initState).2 = 105 - 8 := scriptTitleRoot_snd _
    have hy2 : (scriptMainSections (scriptTitleRoot initState)).2
        = 105 - 8 - 30 := by rw [scriptMainSections_snd, hy1]
    have hy3 : (scriptDataTestConfig (scriptMainSections
        (scriptTitleRoot initState))).2 = 105 - 8 - 30 - 20 := by
      rw [scriptDataTestConfig_snd, hy2]
    have hy4 : (scriptDocsRef (scriptDataTestConfig (scriptMainSections
        (scriptTitleRoot initState)))).2 = 105 - 8 - 30 - 20 - 20 := by
      rw [scriptDocsRef_snd, hy3]
    have hy5 : (scriptDevopsStats (scriptDocsRef (scriptDataTestConfig
        (scriptMainSections (scriptTitleRoot initState))))).2
        = 105 - 8 - 30 - 20 - 20 := by rw [scriptDevopsStats_snd, hy4]
    have hy6 : (scriptTechFeatures (scriptDevopsStats (scriptDocsRef
        (scriptDataTestConfig (scriptMainSections (scriptTitleRoot initState)))))).2
        = 105 - 8 - 30 - 20 - 20 := by rw [scriptTechFeatures_snd, hy5]
    have hp5 : (scriptDevopsStats (scriptDocsRef (scriptDataTestConfig
        (scriptMainSections (scriptTitleRoot initState))))).1.palette = colors := by
      simp only [scriptDevopsStats_palette, scriptDocsRef_palette,
        scriptDataTestConfig_palette, scriptMainSections_palette,
        scriptTitleRoot_palette]
      rfl
    have h1 : ∀ e ∈ (scriptTitleRoot initState).1.elems,
        elemInCanvas e ∨ e ∈ keyFeaturesElems := by
      rw [scriptTitleRoot_elems]
      refine List.forall_mem_append.2 ⟨?_, List.forall_mem_append.2
        ⟨?_, List.forall_mem_append.2 ⟨?_, ?_⟩⟩⟩
      · intro x hx
        simp [initState] at hx
      · exact forall_mem_single (Or.inl
          (by norm_num [elemInCanvas, pointInCanvas, axText]))
      · exact forall_mem_single (Or.inl
          (by norm_num [elemInCanvas, pointInCanvas, axText]))
      · intro x hx
        exact Or.inl (draw_box_mem_inCanvas (by norm_num) (by norm_num)
          (by norm_num) (by norm_num) (by norm_num) (by norm_num) hx)
    have h2 : ∀ e ∈ (scriptMainSections (scriptTitleRoot initState)).1.elems,
        elemInCanvas e ∨ e ∈ keyFeaturesElems := by
      rw [scriptMainSections_elems, hy1]
      refine List.forall_mem_append.2 ⟨h1, List.forall_mem_append.2
        ⟨?_, List.forall_mem_append.2 ⟨?_, ?_⟩⟩⟩ <;>
        exact fun x hx => Or.inl (draw_box_mem_inCanvas (by norm_num) (by norm_num)
          (by norm_num) (by norm_num) (by norm_num) (by norm_num) hx)
    have h3 : ∀ e ∈ (scriptDataTestConfig (scriptMainSections
        (scriptTitleRoot initState))).1.elems,
        elemInCanvas e ∨ e ∈ keyFeaturesElems := by
      rw [scriptDataTestConfig_elems, hy2]
      refine List.forall_mem_append.2 ⟨h2, List.forall_mem_append.2
        ⟨?_, List.forall_mem_append.2 ⟨?_, ?_⟩⟩⟩ <;>
        exact fun x hx => Or.inl (draw_box_mem_inCanvas (by norm_num) (by norm_num)
          (by norm_num) (by norm_num) (by norm_num) (by norm_num) hx)
    have h4 : ∀ e ∈ (scriptDocsRef (scriptDataTestConfig (scriptMainSections
        (scriptTitleRoot initState)))).1.elems,
        elemInCanvas e ∨ e ∈ keyFeaturesElems := by
      rw [scriptDocsRef_elems, hy3]
      refine List.forall_mem_append.2 ⟨h3, List.forall_mem_append.2 ⟨?_, ?_⟩⟩ <;>
        exact fun x hx => Or.inl (draw_box_mem_inCanvas (by norm_num) (by norm_num)
          (by norm_num) (by norm_num) (by norm_num) (by norm_num) hx)
    have h5 : ∀ e ∈ (scriptDevopsStats (scriptDocsRef (scriptDataTestConfig
        (scriptMainSections (scriptTitleRoot initState))))).1.elems,
        elemInCanvas e ∨ e ∈ keyFeaturesElems := by
      rw [scriptDevopsStats_elems, hy4]
      refine List.forall_mem_append.2 ⟨h4, ?_⟩
      refine List.forall_mem_append.2 ⟨?_, List.forall_mem_append.2 ⟨?_, ?_⟩⟩
      · exact fun x hx => Or.inl (draw_box_mem_inCanvas (by norm_num) (by norm_num)
          (by norm_num) (by norm_num) (by norm_num) (by norm_num) hx)
      · exact fun x hx => Or.inl (draw_box_mem_inCanvas (by norm_num) (by norm_num)
          (by norm_num) (by norm_num) (by norm_num) (by norm_num) hx)
      refine List.forall_mem_append.2 ⟨?_, List.forall_mem_append.2
        ⟨?_, List.forall_mem_append.2 ⟨?_, List.forall_mem_append.2
        ⟨?_, List.forall_mem_append.2 ⟨?_, List.forall_mem_append.2 ⟨?_, ?_⟩⟩⟩⟩⟩⟩ <;>
        exact forall_mem_single (Or.inl
          (by norm_num [elemInCanvas, pointInCanvas, axText]))
    have h6 : ∀ e ∈ (scriptTechFeatures (scriptDevopsStats (scriptDocsRef
        (scriptDataTestConfig (scriptMainSections
        (scriptTitleRoot initState)))))).1.elems,
        elemInCanvas e ∨ e ∈ keyFeaturesElems := by
      rw [scriptTechFeatures_elems]
      simp only [lookupColor_of_palette hp5, colors_agents, colors_core, hy5]
      refine List.forall_mem_append.2 ⟨h5, ?_⟩
      refine List.forall_mem_append.2 ⟨?_, ?_⟩
      · exact fun x hx => Or.inl (draw_box_mem_inCanvas (by norm_num) (by norm_num)
          (by norm_num) (by norm_num) (by norm_num) (by norm_num) hx)
      refine List.forall_mem_append.2 ⟨?_, List.forall_mem_append.2
        ⟨?_, List.forall_mem_append.2 ⟨?_, List.forall_mem_append.2
        ⟨?_, List.forall_mem_append.2 ⟨?_, List.forall_mem_append.2
        ⟨?_, List.forall_mem_append.2 ⟨?_, List.forall_mem_append.2
        ⟨?_, List.forall_mem_append.2 ⟨?_, List.forall_mem_append.2
        ⟨?_, List.forall_mem_append.2 ⟨?_, List.forall_mem_append.2
        ⟨?_, List.forall_mem_append.2 ⟨?_, ?_⟩⟩⟩⟩⟩⟩⟩⟩⟩⟩⟩⟩⟩
      · exact forall_mem_single (Or.inl
          (by norm_num [elemInCanvas, pointInCanvas, axText]))
      · exact forall_mem_single (Or.inl
          (by norm_num [elemInCanvas, pointInCanvas, axText]))
      · exact forall_mem_single (Or.inl
          (by norm_num [elemInCanvas, pointInCanvas, axText]))
      · exact forall_mem_single (Or.inl
          (by norm_num [elemInCanvas, pointInCanvas, axText]))
      · exact forall_mem_single (Or.inl
          (by norm_num [elemInCanvas, pointInCanvas, axText]))
      · exact forall_mem_single (Or.inl
          (by norm_num [elemInCanvas, pointInCanvas, axText]))
      · exact forall_mem_single (Or.inl
          (by norm_num [elemInCanvas, pointInCanvas, axText]))
      · exact forall_mem_single (Or.inl
          (by norm_num [elemInCanvas, pointInCanvas, axText]))
      · exact forall_mem_single (Or.inl
          (by norm_num [elemInCanvas, pointInCanvas, axText]))
      · exact forall_mem_single (Or.inl
          (by norm_num [elemInCanvas, pointInCanvas, axText]))
      · exact forall_mem_single (Or.inl
          (by norm_num [elemInCanvas, pointInCanvas, axText]))
      · exact forall_mem_single (Or.inl
          (by norm_num [elemInCanvas, pointInCanvas, axText]))
      · exact forall_mem_single (Or.inl
          (by norm_num [elemInCanvas, pointInCanvas, axText]))
      refine List.forall_mem_append.2 ⟨?_, List.forall_mem_append.2
        ⟨?_, List.forall_mem_append.2 ⟨?_, List.forall_mem_append.2
        ⟨?_, List.forall_mem_append.2 ⟨?_, ?_⟩⟩⟩⟩⟩
      · intro x hx
        right
        rw [show ((105 : ℚ) - 8 - 30 - 20 - 20 - 25 - 8) = -6 from by norm_num] at hx
        rw [draw_box_empty] at hx
        norm_num at hx
        rcases hx with rfl | rfl
        · norm_num [keyFeaturesElems]
        · norm_num [keyFeaturesElems]
      · exact forall_mem_single (Or.inr (by norm_num [keyFeaturesElems, axText]))
      · exact forall_mem_single (Or.inr (by norm_num [keyFeaturesElems, axText]))
      · exact forall_mem_single (Or.inr (by norm_num [keyFeaturesElems, axText]))
      · exact forall_mem_single (Or.inr (by norm_num [keyFeaturesElems, axText]))
      · exact forall_mem_single (Or.inr (by norm_num [keyFeaturesElems, axText]))
    have h7 : ∀ e ∈ (scriptLinesFooter (scriptTechFeatures (scriptDevopsStats
        (scriptDocsRef (scriptDataTestConfig (scriptMainSections
        (scriptTitleRoot initState))))))).1.elems,
        elemInCanvas e ∨ e ∈ keyFeaturesElems := by
      rw [scriptLinesFooter_elems, hy6]
      refine List.forall_mem_append.2 ⟨h6, List.forall_mem_append.2
        ⟨?_, List.forall_mem_append.2 ⟨?_, List.forall_mem_append.2
        ⟨?_, List.forall_mem_append.2 ⟨?_, ?_⟩⟩⟩⟩⟩ <;>
        exact forall_mem_single (Or.inl
          (by norm_num [elemInCanvas, pointInCanvas, axText]))
    intro e he
    simp only [elems, render, runScript] at he
    exact h7 e he
  · intro e he
    simp only [keyFeaturesElems, List.mem_cons, List.not_mem_nil, or_false] at he
    rcases he with rfl|rfl|rfl|rfl|rfl|rfl|rfl
    all_goals exact ⟨by norm_num [elemInX, pointInX, axText, drawBoxPatch],
      by norm_num [elemInCanvas, pointInCanvas, axText, drawBoxPatch]⟩

/-- Witness for C1 (amended) at the first connector line. -/
theorem canvas_extent_amended_witness :
    (Elem.line ⟨19, 35, 37, 37⟩ ∈ elems) ∧
    (elemInCanvas (Elem.line ⟨19, 35, 37, 37⟩) ∨
      Elem.line ⟨19, 35, 37, 37⟩ ∈ keyFeaturesElems) := by
  have hy6 : (scriptTechFeatures (scriptDevopsStats (scriptDocsRef
      (scriptDataTestConfig (scriptMainSections (scriptTitleRoot initState)))))).2
      = 105 - 8 - 30 - 20 - 20 := by
    simp only [scriptTechFeatures_snd, scriptDevopsStats_snd, scriptDocsRef_snd,
      scriptDataTestConfig_snd, scriptMainSections_snd, scriptTitleRoot_snd]
  have hmem : Elem.line ⟨19, 35, 37, 37⟩ ∈ elems := by
    simp only [elems, render, runScript]
    rw [scriptLinesFooter_elems, hy6]
    refine List.mem_append_right _ ?_
    norm_num
  exact ⟨hmem, canvas_extent_amended.1 _ hmem⟩

end DirectoryDiagram
